import Mathlib

/-!
Verification development for the NEWS_FEED repository (files `UpdatN.py` and
`handler.py`).

The pipeline fetches three news homepages, strips non-article HTML, sends the
combined, truncated text to an LLM with a strict response schema, and persists
the parsed result.  We give a shallow embedding:

* Python strings are `List Char` (`Str`); slicing `s[:n]` is `List.take n`,
  the `in` substring test is `pyIn`.
* Python values coming back from `json.loads` are `PyVal` (JSON numbers are
  modelled as integers; the distinction never matters here).
* The three external effectful calls — `requests.get`+BeautifulSoup cleaning,
  the Gemini `generate_content` call, and `json.loads` — are oracles packed in
  a `FeedConfig`: each theorem quantifies over all of their behaviours.
* Observable effects (HTTP fetches, console prints, the LLM invocation,
  database and file writes) are recorded in an event trace, so that temporal
  claims ("the LLM is never invoked") become statements about the trace.
-/

namespace NewsFeed

/-- Python strings, modelled as lists of characters so that slicing and
substring search have their list semantics. -/
abbrev Str := List Char

/-- Python's substring containment test `needle in hay`. -/
def pyIn (needle hay : Str) : Bool := decide (needle <:+: hay)

/-- A Python value as produced by `json.loads` or built by the program.
JSON numbers are modelled as integers (no claim distinguishes floats). -/
inductive PyVal where
  | null
  | bool (b : Bool)
  | int (n : Int)
  | str (s : Str)
  | list (elems : List PyVal)
  | dict (entries : List (Str × PyVal))

/-- Dictionary key lookup: `v[k]` for a dict, `none` for any other value. -/
def lookupKey (v : PyVal) (k : Str) : Option PyVal :=
  match v with
  | .dict entries => entries.lookup k
  | _ => .none

/-- Tests whether a Python value is a string (`isinstance(v, str)`). -/
def isPyStr : PyVal → Bool
  | .str _ => true
  | _ => false

/-- Tests whether a Python value is a list all of whose elements satisfy `p`. -/
def isPyListOf (p : PyVal → Bool) : PyVal → Bool
  | .list elems => elems.all p
  | _ => false

/-- The seven fixed category names of `UpdatN.get_response_schema`. -/
def categories : List Str :=
  ["World".toList, "Business".toList, "Technology".toList,
   "Entertainment".toList, "Sports".toList, "Science".toList, "Health".toList]

/-- The article schema literal built by `UpdatN.get_response_schema`
(`article_schema` in the source). -/
def article_schema : PyVal :=
  .dict
    [("type".toList, .str ("OBJECT".toList)),
     ("properties".toList, .dict
       [("headline".toList, .dict
          [("type".toList, .str ("STRING".toList)),
           ("description".toList,
            .str ("The main headline of the news article.".toList))]),
        ("summary".toList, .dict
          [("type".toList, .str ("STRING".toList)),
           ("description".toList,
            .str ("A brief summary of the article (2-3 sentences).".toList))]),
        ("key_points".toList, .dict
          [("type".toList, .str ("ARRAY".toList)),
           ("description".toList,
            .str ("A list of the 2-4 most critical takeaways.".toList)),
           ("items".toList, .dict
             [("type".toList, .str ("STRING".toList))])])]),
     ("required".toList, .list
       [.str ("headline".toList), .str ("summary".toList),
        .str ("key_points".toList)]),
     ("propertyOrdering".toList, .list
       [.str ("headline".toList), .str ("summary".toList),
        .str ("key_points".toList)])]

/-- The root-schema property attached to one category: array of articles, with
the f-string description of the source. -/
def categoryProperty (category : Str) : PyVal :=
  .dict
    [("type".toList, .str ("ARRAY".toList)),
     ("description".toList,
      .str ("List of articles belonging to the ".toList ++ category ++
            " category.".toList)),
     ("items".toList, article_schema)]

/-- `UpdatN.get_response_schema`: the strict JSON schema for the model output.
A plain value (Python dict comprehension preserves the category order). -/
def get_response_schema : PyVal :=
  .dict
    [("type".toList, .str ("OBJECT".toList)),
     ("properties".toList,
      .dict (categories.map fun category => (category, categoryProperty category))),
     ("required".toList, .list (categories.map PyVal.str))]

/-- A value conforms to the article item schema: the three required properties
are present with their declared types. -/
def matchesArticleSchema (v : PyVal) : Bool :=
  match lookupKey v ("headline".toList), lookupKey v ("summary".toList),
        lookupKey v ("key_points".toList) with
  | some h, some s, some k => isPyStr h && isPyStr s && isPyListOf isPyStr k
  | _, _, _ => false

/-- A value conforms to the root response schema of `get_response_schema`:
it is an object and every one of the seven required category keys is present
and bound to an array of article objects. -/
def matchesResponseSchema (v : PyVal) : Bool :=
  (match v with | .dict _ => true | _ => false) &&
  categories.all fun category =>
    match lookupKey v category with
    | some arr => isPyListOf matchesArticleSchema arr
    | none => false

/-- The ordered key list of the dict stored under key `k` of `v`, when there
is one. -/
def keysAt (v : PyVal) (k : Str) : Option (List Str) :=
  match lookupKey v k with
  | some (.dict entries) => some (entries.map Prod.fst)
  | _ => Option.none

/-- The declared property `p` of an object schema `v` (an entry of its
"properties" dict). -/
def propAt (v : PyVal) (p : Str) : Option PyVal :=
  match lookupKey v ("properties".toList) with
  | some props => lookupKey props p
  | none => Option.none

/-- The "type" string declared for property `p` of an object schema `v`. -/
def propTypeAt (v : PyVal) (p : Str) : Option Str :=
  match propAt v p with
  | some prop =>
      match lookupKey prop ("type".toList) with
      | some (.str t) => some t
      | _ => Option.none
  | none => Option.none

/-- The "items" sub-schema declared for property `p` of an object schema `v`.
For the root schema the argument `p` is a category name. -/
def itemsAt (v : PyVal) (p : Str) : Option PyVal :=
  match propAt v p with
  | some prop => lookupKey prop ("items".toList)
  | none => Option.none

/-- The "type" string of the "items" sub-schema of property `p` of `v`. -/
def itemTypeAt (v : PyVal) (p : Str) : Option Str :=
  match itemsAt v p with
  | some items =>
      match lookupKey items ("type".toList) with
      | some (.str t) => some t
      | _ => Option.none
  | none => Option.none

/-! ## The `Website` scraper class -/

/-- Outcome of the `requests.get` + BeautifulSoup step inside
`Website.__init__`, which is external to the program:
`ok title body` is a completed request whose `raise_for_status()` passed,
carrying the optional `soup.title.string` and, when a `body` element exists,
its cleaned text (`soup.body.get_text` after removing the denylist elements);
`err e` is a raised `requests.exceptions.RequestException` rendered as the
string `e` (network error or bad HTTP status). -/
inductive FetchOutcome where
  | ok (title : Option Str) (body : Option Str)
  | err (e : Str)
deriving DecidableEq

/-- The `Website` object: url plus the `title` and `text` fields set by
`Website.__init__`. -/
structure Website where
  url : Str
  title : Str
  text : Str

/-- `Website.__init__` given the outcome of its external request: on success,
title falls back to "No title found" and text to "No body content found"; on a
`RequestException` the exception is swallowed and the fields are set to the
fixed error markers.  The function is total: no exception propagates. -/
def mkWebsite (url : Str) (outcome : FetchOutcome) : Website :=
  match outcome with
  | .ok title body =>
      { url := url
        title := title.getD ("No title found".toList)
        text := body.getD ("No body content found".toList) }
  | .err e =>
      { url := url
        title := "Scraping Error".toList
        text := "Failed to retrieve website content: ".toList ++ e }

/-! ## The `NewsExtractor` class -/

/-- Outcome of the external `client.models.generate_content` call inside
`NewsExtractor.extract_news`: a response whose `.text` is the given string, or
an exception rendered by `str(e)`. -/
inductive LlmOutcome where
  | response (text : Str)
  | apiError (e : Str)
deriving DecidableEq

/-- The three external collaborators of one run, as oracles:
`fetch` is the HTTP request + HTML cleaning for a URL, `llm` maps the full
prompt sent to `generate_content` to its outcome, and `jsonLoads` models
`json.loads` (`some v` when the string parses to the Python value `v`,
`none` when `json.JSONDecodeError` is raised). -/
structure FeedConfig where
  fetch : Str → FetchOutcome
  llm : Str → LlmOutcome
  jsonLoads : Str → Option PyVal

/-- Observable events of one `feed` run, in order: an HTTP fetch issued by a
`Website` construction, a console `print`, and the invocation of
`extract_news` with the (already truncated) website text it receives. -/
inductive Event where
  | fetch (url : Str)
  | printed (s : Str)
  | llmCall (websiteText : Str)
deriving DecidableEq

/-- The failure marker substring tested by `feed`
(`"Failed to retrieve" in te.text`). -/
def failedMarker : Str := "Failed to retrieve".toList

/-- The separator placed between the three website texts in `feed`. -/
def websiteSep : Str := "\n\n--- NEXT WEBSITE ---\n\n".toList

/-- `MAX_CONTENT_LENGTH` in `feed`. -/
def MAX_CONTENT_LENGTH : Nat := 55000

/-- The truncation notice printed by `feed` when the combined text exceeds the
cap. -/
def truncationNote : Str :=
  "NOTE: Truncating scraped content to 55000 characters for API call.".toList

/-- The success state string returned by `feed` on a dict result. -/
def successState : Str :=
  "\n--- SUCCESSFULLY EXTRACTED NEWS (JSON) ---".toList

/-- The failure state string returned by `feed` on a string result. -/
def failureState : Str :=
  "--- EXTRACTION FAILED (SEE ERROR) ---".toList

/-- Message prefix of `extract_news` when the model text is not valid JSON. -/
def invalidJsonMsg : Str :=
  "Error: Model returned invalid JSON. Raw text: ".toList

/-- Message prefix of `extract_news` when `generate_content` raises. -/
def apiErrorMsg : Str :=
  "Error communicating with Gemini API: ".toList

/-- Prefix of the error-details print in the string branch of `feed`. -/
def errorDetailsMsg : Str := "Error details: ".toList

/-- The progress line printed by `extract_news` before calling the API. -/
def sendingNote : Str :=
  "Sending request to Gemini API to extract structured news...".toList

/-- The `prompt_instructions` triple-quoted literal of `extract_news`,
including its indentation whitespace. -/
def prompt_instructions : Str :=
  ("\n        You are a news content extractor. Your response **MUST** be a single, raw JSON object (no wrappers, no prose) \n        that strictly adheres to the provided JSON schema.\n        \n        From the following website content, please:\n        \n        1. Identify and extract the main news articles.\n        2. Classify each article into one of the following categories: \"World\", \"Business\", \"Technology\", \"Entertainment\", \"Sports\", \"Science\", \"Health\".\n        3. For each article, provide: Headline, Brief summary (2-3 sentences), and Key points (a list of critical takeaways).\n        4. Filter out advertisements, navigation menus, and all irrelevant, non-news content.\n        5. prioritize articles up, as per their importance, scale and effect from Indian prespective.\n        6. Skip an artical if you feel that the same news has alrady accured.\n        \n        If a category has no content, its array should be empty ([]).\n        \n        Website Content:\n        ").toList

/-- `NewsExtractor.extract_news`: builds the full prompt, prints the progress
line, invokes the generation API, and parses the response text as JSON.
Returns the Python value it returns (the parsed JSON on success, an error
string otherwise) together with its event trace; the `llmCall` event records
the `website_text` argument the method was invoked with. -/
def extract_news (cfg : FeedConfig) (website_text : Str) : PyVal × List Event :=
  let full_prompt := prompt_instructions ++ website_text
  let events := [Event.printed sendingNote, Event.llmCall website_text]
  match cfg.llm full_prompt with
  | .response text =>
      match cfg.jsonLoads text with
      | some parsed_json => (parsed_json, events)
      | none => (.str (invalidJsonMsg ++ text), events)
  | .apiError e => (.str (apiErrorMsg ++ e), events)

/-- `NewsExtractor.feed`: constructs the three `Website` objects, short-circuits
on the failure marker, otherwise concatenates the three texts with the
separator, truncates to `MAX_CONTENT_LENGTH`, and dispatches on the type of
the `extract_news` result.  The first component is the returned value
(`none` models Python's implicit `return None` fall-through), the second the
event trace of the run. -/
def feed (cfg : FeedConfig) (url url1 url2 : Str) :
    Option (Str × PyVal) × List Event :=
  let te0 := mkWebsite url (cfg.fetch url)
  let te1 := mkWebsite url1 (cfg.fetch url1)
  let te2 := mkWebsite url2 (cfg.fetch url2)
  let fetchEvents := [Event.fetch url, Event.fetch url1, Event.fetch url2]
  if pyIn failedMarker te0.text then
    (.none, fetchEvents ++ [Event.printed te0.text])
  else if pyIn failedMarker te1.text then
    (.none, fetchEvents ++ [Event.printed te1.text])
  else if pyIn failedMarker te2.text then
    (.none, fetchEvents ++ [Event.printed te2.text])
  else
    let combined_text := te0.text ++ websiteSep ++ te1.text ++ websiteSep ++ te2.text
    let mk := combined_text.take MAX_CONTENT_LENGTH
    let truncEvents :=
      if combined_text.length > MAX_CONTENT_LENGTH then [Event.printed truncationNote]
      else []
    let res := extract_news cfg mk
    let events := fetchEvents ++ truncEvents ++ res.2
    match res.1 with
    | .dict entries => (some (successState, .dict entries), events)
    | .str s =>
        (some (failureState, .str s), events ++ [Event.printed (errorDetailsMsg ++ s)])
    | _ => (.none, events)

/-- The website texts handed to `extract_news` during a trace, in order. -/
def llmCalls (trace : List Event) : List Str :=
  trace.filterMap fun e =>
    match e with
    | .llmCall t => some t
    | _ => .none

/-- The concatenation `feed` builds when no fetch failed: source-1 text,
separator, source-2 text, separator, source-3 text, in that fixed order. -/
def feedCombined (cfg : FeedConfig) (url url1 url2 : Str) : Str :=
  (mkWebsite url (cfg.fetch url)).text ++ websiteSep ++
  (mkWebsite url1 (cfg.fetch url1)).text ++ websiteSep ++
  (mkWebsite url2 (cfg.fetch url2)).text

/-- The text `feed` forwards to `extract_news` when no fetch failed: the
prefix cut of the combined text at `MAX_CONTENT_LENGTH`. -/
def feedLlmInput (cfg : FeedConfig) (url url1 url2 : Str) : Str :=
  (feedCombined cfg url url1 url2).take MAX_CONTENT_LENGTH

/-- The event trace of the no-failure path of `feed` up to and including the
extractor invocation. -/
def feedEvents (cfg : FeedConfig) (url url1 url2 : Str) : List Event :=
  [Event.fetch url, Event.fetch url1, Event.fetch url2] ++
  (if (feedCombined cfg url url1 url2).length > MAX_CONTENT_LENGTH
   then [Event.printed truncationNote] else []) ++
  [Event.printed sendingNote, Event.llmCall (feedLlmInput cfg url url1 url2)]

/-! ## The persistence handler (`handler.py`) -/

/-- A document of the `daily_news` collection: insertion timestamp plus the
news payload. -/
structure StoredDoc where
  date : Nat
  news : PyVal

/-- `collection.delete_many({})`: clears the collection. -/
def delete_many (_coll : List StoredDoc) : List StoredDoc := []

/-- `collection.insert_one(doc)`: appends one document. -/
def insert_one (coll : List StoredDoc) (doc : StoredDoc) : List StoredDoc :=
  coll ++ [doc]

/-- The persistence block of `handler.py`: delete all previous documents, then
insert the single new snapshot `{date: now, news: nc}`. -/
def persistSnapshot (coll : List StoredDoc) (now : Nat) (nc : PyVal) :
    List StoredDoc :=
  insert_one (delete_many coll) { date := now, news := nc }

/-- Observable events of the handler's result dispatch.  `stateLog` and
`typeLog` are the two inspection prints, `fileWrite` is the `json.dump` of the
payload to `docs/news.json`, `deleteMany`/`insertOne` are the two collection
operations, `failureLog`/`errorDetails` are the non-success diagnostics
(the latter prints the diagnostic payload), and `noResultLog` is the print of
the unexpected-format branch. -/
inductive HEvent where
  | stateLog (state : Str)
  | typeLog (v : PyVal)
  | fileWrite (nc : PyVal)
  | deleteMany
  | insertOne (doc : StoredDoc)
  | failureLog (state : Str)
  | errorDetails (v : PyVal)
  | noResultLog

/-- Tests whether a handler event touches the document store or the static
file mirror. -/
def isPersistOp : HEvent → Bool
  | .fileWrite _ => true
  | .deleteMany => true
  | .insertOne _ => true
  | _ => false

/-- The result dispatch of `handler.py` after `feed` returns: given the current
collection, the current content of `docs/news.json` (`none` if absent) and the
timestamp `datetime.datetime.now()`, produce the new collection, the new file
content and the event trace.  `feed` returns either `None` or a pair, so the
guard `if result and len(result) == 2` reduces to the `Option` match. -/
def handleResult (coll : List StoredDoc) (file : Option PyVal) (now : Nat)
    (result : Option (Str × PyVal)) :
    List StoredDoc × Option PyVal × List HEvent :=
  match result with
  | some (state, nc) =>
      if state = successState then
        (persistSnapshot coll now nc, some nc,
         [.stateLog state, .typeLog nc, .fileWrite nc, .deleteMany,
          .insertOne { date := now, news := nc }])
      else
        (coll, file,
         [.stateLog state, .typeLog nc, .failureLog state, .errorDetails nc])
  | none => (coll, file, [.noResultLog])

/-! ## General lemmas -/

/-- `extract_news` always prints the progress line and performs exactly one
API invocation, whatever the oracles answer. -/
theorem extract_news_events (cfg : FeedConfig) (t : Str) :
    (extract_news cfg t).2 = [Event.printed sendingNote, Event.llmCall t] := by
  unfold extract_news
  cases hl : cfg.llm (prompt_instructions ++ t) with
  | response text => cases hj : cfg.jsonLoads text <;> simp only [hl, hj]
  | apiError e => simp only [hl]

/-- When no fetched text contains the failure marker, `feed` reaches the
extractor and dispatches on the type of its result; the trace is
`feedEvents`. -/
theorem feed_no_marker (cfg : FeedConfig) (u0 u1 u2 : Str)
    (h0 : pyIn failedMarker (mkWebsite u0 (cfg.fetch u0)).text = false)
    (h1 : pyIn failedMarker (mkWebsite u1 (cfg.fetch u1)).text = false)
    (h2 : pyIn failedMarker (mkWebsite u2 (cfg.fetch u2)).text = false) :
    feed cfg u0 u1 u2 =
      (match (extract_news cfg (feedLlmInput cfg u0 u1 u2)).1 with
       | PyVal.dict entries =>
           (some (successState, PyVal.dict entries), feedEvents cfg u0 u1 u2)
       | PyVal.str s =>
           (some (failureState, PyVal.str s),
            feedEvents cfg u0 u1 u2 ++ [Event.printed (errorDetailsMsg ++ s)])
       | _ => (Option.none, feedEvents cfg u0 u1 u2)) := by
  have n0 : ¬ (pyIn failedMarker (mkWebsite u0 (cfg.fetch u0)).text = true) := by
    rw [h0]; exact Bool.false_ne_true
  have n1 : ¬ (pyIn failedMarker (mkWebsite u1 (cfg.fetch u1)).text = true) := by
    rw [h1]; exact Bool.false_ne_true
  have n2 : ¬ (pyIn failedMarker (mkWebsite u2 (cfg.fetch u2)).text = true) := by
    rw [h2]; exact Bool.false_ne_true
  simp only [feed]
  rw [if_neg n0, if_neg n1, if_neg n2]
  simp only [extract_news_events]
  rfl

/-- The conformance checker forces all seven category keys to be present and
bound to arrays. -/
theorem schema_categories_are_lists (v : PyVal)
    (h : matchesResponseSchema v = true) :
    ∀ c ∈ categories, ∃ elems, lookupKey v c = some (PyVal.list elems) := by
  intro c hc
  have hall := h
  simp only [matchesResponseSchema, Bool.and_eq_true, List.all_eq_true] at hall
  have hcv := hall.2 c hc
  cases hl : lookupKey v c with
  | none => rw [hl] at hcv; exact absurd hcv (by simp)
  | some arr =>
      rw [hl] at hcv
      cases arr <;> simp only [isPyListOf] at hcv
      case list elems => exact ⟨elems, rfl⟩
      all_goals exact absurd hcv (by simp)

/-! ## Claim theorems -/

/-- C5: the persistence block is delete-all-then-insert-one, so after any
successful run the collection holds exactly one document, and running it twice
in a row with the same payload still leaves exactly one document. -/
theorem persist_latest_only (coll : List StoredDoc) (now1 now2 : Nat) (nc : PyVal) :
    (persistSnapshot (persistSnapshot coll now1 nc) now2 nc).length = 1 ∧
    (persistSnapshot coll now1 nc).length = 1 :=
  ⟨rfl, rfl⟩

/-- C6: constructing a `Website` never propagates a request exception: on a
network or HTTP-status error the `text` field is the fixed failure prefix
followed by the error description and the `title` field is "Scraping Error",
so downstream logic always has a text value to inspect. -/
theorem website_error_fallback (url e : Str) :
    (mkWebsite url (FetchOutcome.err e)).title = "Scraping Error".toList ∧
    (mkWebsite url (FetchOutcome.err e)).text =
      "Failed to retrieve website content: ".toList ++ e ∧
    "Failed to retrieve website content:".toList <+:
      (mkWebsite url (FetchOutcome.err e)).text := by
  refine ⟨rfl, rfl, ⟨' ' :: e, ?_⟩⟩
  show "Failed to retrieve website content:".toList ++ (' ' :: e) =
    "Failed to retrieve website content: ".toList ++ e
  have h : "Failed to retrieve website content:".toList ++ [' '] =
      "Failed to retrieve website content: ".toList := by decide
  rw [← h, List.append_assoc]
  rfl

/-- C7: on a result whose status marker is not the success marker, the handler
leaves the collection and the static file mirror unchanged, performs no
delete/insert/file-write operation, and logs the diagnostic payload. -/
theorem handler_nonsuccess_skips (coll : List StoredDoc) (file : Option PyVal)
    (now : Nat) (state : Str) (nc : PyVal) (h : state ≠ successState) :
    (handleResult coll file now (some (state, nc))).1 = coll ∧
    (handleResult coll file now (some (state, nc))).2.1 = file ∧
    HEvent.errorDetails nc ∈ (handleResult coll file now (some (state, nc))).2.2 ∧
    ∀ e ∈ (handleResult coll file now (some (state, nc))).2.2,
      isPersistOp e = false := by
  have e1 : handleResult coll file now (some (state, nc)) =
      (coll, file,
       [.stateLog state, .typeLog nc, .failureLog state, .errorDetails nc]) := by
    simp only [handleResult, if_neg h]
  rw [e1]
  refine ⟨rfl, rfl, by simp, ?_⟩
  intro e he
  simp only [List.mem_cons, List.not_mem_nil, or_false] at he
  rcases he with rfl | rfl | rfl | rfl <;> rfl

/-- Witness for C7 at a concrete non-success result pair. -/
theorem handler_nonsuccess_skips_witness :
    failureState ≠ successState ∧
    ((handleResult [] .none 0 (some (failureState, PyVal.str []))).1 = [] ∧
     (handleResult [] .none 0 (some (failureState, PyVal.str []))).2.1 = .none ∧
     HEvent.errorDetails (PyVal.str []) ∈
       (handleResult [] .none 0 (some (failureState, PyVal.str []))).2.2 ∧
     ∀ e ∈ (handleResult [] .none 0 (some (failureState, PyVal.str []))).2.2,
       isPersistOp e = false) :=
  ⟨by decide, handler_nonsuccess_skips [] .none 0 failureState (PyVal.str []) (by decide)⟩

/-- C10: every run of `feed` issues all three website fetches, in argument
order, before any other observable step — in particular a failing first fetch
does not prevent the second and third requests. -/
theorem feed_all_fetches_first (cfg : FeedConfig) (u0 u1 u2 : Str) :
    (feed cfg u0 u1 u2).2.take 3 = [Event.fetch u0, Event.fetch u1, Event.fetch u2] := by
  simp only [feed]
  split
  · rfl
  · split
    · rfl
    · split
      · rfl
      · split <;> rfl

/-- C1: when all three fetched texts are free of the failure marker and the
LLM response text parses as JSON conforming to the extraction schema, `feed`
returns the success marker paired with that mapping, which binds each of the
seven category keys to an array. -/
theorem feed_success_schema (cfg : FeedConfig) (u0 u1 u2 r : Str) (v : PyVal)
    (h0 : pyIn failedMarker (mkWebsite u0 (cfg.fetch u0)).text = false)
    (h1 : pyIn failedMarker (mkWebsite u1 (cfg.fetch u1)).text = false)
    (h2 : pyIn failedMarker (mkWebsite u2 (cfg.fetch u2)).text = false)
    (hllm : cfg.llm (prompt_instructions ++ feedLlmInput cfg u0 u1 u2) =
      LlmOutcome.response r)
    (hjson : cfg.jsonLoads r = some v)
    (hschema : matchesResponseSchema v = true) :
    (feed cfg u0 u1 u2).1 = some (successState, v) ∧
    ∀ c ∈ categories, ∃ elems, lookupKey v c = some (PyVal.list elems) := by
  refine ⟨?_, schema_categories_are_lists v hschema⟩
  obtain ⟨entries, rfl⟩ : ∃ entries, v = PyVal.dict entries := by
    cases v <;>
      first
        | exact ⟨_, rfl⟩
        | exact absurd hschema (by simp [matchesResponseSchema])
  have hx : extract_news cfg (feedLlmInput cfg u0 u1 u2) =
      (PyVal.dict entries,
       [Event.printed sendingNote, Event.llmCall (feedLlmInput cfg u0 u1 u2)]) := by
    unfold extract_news
    simp only [hllm, hjson]
  rw [feed_no_marker cfg u0 u1 u2 h0 h1 h2, hx]

/-- C2: if any of the three fetched texts contains the failure marker, `feed`
never invokes the LLM extractor and prints the error text of a failing
source. -/
theorem feed_marker_skips_llm (cfg : FeedConfig) (u0 u1 u2 : Str)
    (h : pyIn failedMarker (mkWebsite u0 (cfg.fetch u0)).text = true ∨
         pyIn failedMarker (mkWebsite u1 (cfg.fetch u1)).text = true ∨
         pyIn failedMarker (mkWebsite u2 (cfg.fetch u2)).text = true) :
    llmCalls (feed cfg u0 u1 u2).2 = [] ∧
    ((pyIn failedMarker (mkWebsite u0 (cfg.fetch u0)).text = true ∧
      Event.printed (mkWebsite u0 (cfg.fetch u0)).text ∈ (feed cfg u0 u1 u2).2) ∨
     (pyIn failedMarker (mkWebsite u1 (cfg.fetch u1)).text = true ∧
      Event.printed (mkWebsite u1 (cfg.fetch u1)).text ∈ (feed cfg u0 u1 u2).2) ∨
     (pyIn failedMarker (mkWebsite u2 (cfg.fetch u2)).text = true ∧
      Event.printed (mkWebsite u2 (cfg.fetch u2)).text ∈ (feed cfg u0 u1 u2).2)) := by
  by_cases h0 : pyIn failedMarker (mkWebsite u0 (cfg.fetch u0)).text = true
  · have e1 : feed cfg u0 u1 u2 =
        (Option.none, [Event.fetch u0, Event.fetch u1, Event.fetch u2,
          Event.printed (mkWebsite u0 (cfg.fetch u0)).text]) := by
      simp only [feed, if_pos h0]
      rfl
    rw [e1]
    exact ⟨rfl, Or.inl ⟨h0, by simp⟩⟩
  · by_cases h1 : pyIn failedMarker (mkWebsite u1 (cfg.fetch u1)).text = true
    · have e1 : feed cfg u0 u1 u2 =
          (Option.none, [Event.fetch u0, Event.fetch u1, Event.fetch u2,
            Event.printed (mkWebsite u1 (cfg.fetch u1)).text]) := by
        simp only [feed, if_neg h0, if_pos h1]
        rfl
      rw [e1]
      exact ⟨rfl, Or.inr (Or.inl ⟨h1, by simp⟩)⟩
    · have h2 : pyIn failedMarker (mkWebsite u2 (cfg.fetch u2)).text = true := by
        rcases h with h | h | h
        · exact absurd h h0
        · exact absurd h h1
        · exact h
      have e1 : feed cfg u0 u1 u2 =
          (Option.none, [Event.fetch u0, Event.fetch u1, Event.fetch u2,
            Event.printed (mkWebsite u2 (cfg.fetch u2)).text]) := by
        simp only [feed, if_neg h0, if_neg h1, if_pos h2]
        rfl
      rw [e1]
      exact ⟨rfl, Or.inr (Or.inr ⟨h2, by simp⟩)⟩

/-- C3: when all three fetches are marker-free, exactly one extractor
invocation happens and its text is the prefix cut at `MAX_CONTENT_LENGTH` of
the separator-joined concatenation in the fixed source order, so it is a
prefix of the combined text of length at most the cap. -/
theorem feed_truncates_after_concat (cfg : FeedConfig) (u0 u1 u2 : Str)
    (h0 : pyIn failedMarker (mkWebsite u0 (cfg.fetch u0)).text = false)
    (h1 : pyIn failedMarker (mkWebsite u1 (cfg.fetch u1)).text = false)
    (h2 : pyIn failedMarker (mkWebsite u2 (cfg.fetch u2)).text = false) :
    llmCalls (feed cfg u0 u1 u2).2 =
      [((mkWebsite u0 (cfg.fetch u0)).text ++ websiteSep ++
        (mkWebsite u1 (cfg.fetch u1)).text ++ websiteSep ++
        (mkWebsite u2 (cfg.fetch u2)).text).take MAX_CONTENT_LENGTH] ∧
    feedLlmInput cfg u0 u1 u2 <+: feedCombined cfg u0 u1 u2 ∧
    (feedLlmInput cfg u0 u1 u2).length ≤ MAX_CONTENT_LENGTH := by
  refine ⟨?_, ⟨_, List.take_append_drop _ _⟩, ?_⟩
  · rw [feed_no_marker cfg u0 u1 u2 h0 h1 h2]
    split <;>
      simp [llmCalls, feedEvents, feedLlmInput, feedCombined,
        List.filterMap_append, apply_ite (List.filterMap _)]
  · show ((feedCombined cfg u0 u1 u2).take MAX_CONTENT_LENGTH).length ≤ _
    rw [ List.length_take]
    exact inf_le_left

/-- C4: when all three fetches are marker-free and the LLM response text is
not valid JSON, `feed` returns the failure marker paired with a string that
contains the raw response text. -/
theorem feed_invalid_json (cfg : FeedConfig) (u0 u1 u2 r : Str)
    (h0 : pyIn failedMarker (mkWebsite u0 (cfg.fetch u0)).text = false)
    (h1 : pyIn failedMarker (mkWebsite u1 (cfg.fetch u1)).text = false)
    (h2 : pyIn failedMarker (mkWebsite u2 (cfg.fetch u2)).text = false)
    (hllm : cfg.llm (prompt_instructions ++ feedLlmInput cfg u0 u1 u2) =
      LlmOutcome.response r)
    (hjson : cfg.jsonLoads r = Option.none) :
    (feed cfg u0 u1 u2).1 =
      some (failureState, PyVal.str (invalidJsonMsg ++ r)) ∧
    r <:+: invalidJsonMsg ++ r := by
  have hx : extract_news cfg (feedLlmInput cfg u0 u1 u2) =
      (PyVal.str (invalidJsonMsg ++ r),
       [Event.printed sendingNote, Event.llmCall (feedLlmInput cfg u0 u1 u2)]) := by
    unfold extract_news
    simp only [hllm, hjson]
  refine ⟨?_, ⟨invalidJsonMsg, [], by simp⟩⟩
  rw [feed_no_marker cfg u0 u1 u2 h0 h1 h2, hx]

/-- C8: `get_response_schema` is a fixed object schema with exactly the seven
category properties in order, all required and array-valued, and its items
schema requires exactly the three article properties with their declared
types. -/
theorem response_schema_shape :
    lookupKey get_response_schema ("type".toList) =
      some (PyVal.str ("OBJECT".toList)) ∧
    keysAt get_response_schema ("properties".toList) = some categories ∧
    lookupKey get_response_schema ("required".toList) =
      some (PyVal.list (categories.map PyVal.str)) ∧
    (∀ c ∈ categories,
      propTypeAt get_response_schema c = some ("ARRAY".toList) ∧
      itemsAt get_response_schema c = some article_schema) ∧
    keysAt article_schema ("properties".toList) =
      some ["headline".toList, "summary".toList, "key_points".toList] ∧
    lookupKey article_schema ("required".toList) =
      some (PyVal.list [PyVal.str ("headline".toList),
        PyVal.str ("summary".toList), PyVal.str ("key_points".toList)]) ∧
    propTypeAt article_schema ("headline".toList) = some ("STRING".toList) ∧
    propTypeAt article_schema ("summary".toList) = some ("STRING".toList) ∧
    propTypeAt article_schema ("key_points".toList) = some ("ARRAY".toList) ∧
    itemTypeAt article_schema ("key_points".toList) = some ("STRING".toList) := by
  refine ⟨rfl, rfl, rfl, ?_, rfl, rfl, rfl, rfl, rfl, rfl⟩
  intro c hc
  simp only [categories, List.mem_cons, List.mem_singleton,
    List.not_mem_nil, or_false] at hc
  rcases hc with rfl | rfl | rfl | rfl | rfl | rfl | rfl <;> exact ⟨rfl, rfl⟩

/-! ## Concrete oracle behaviours for the witnesses -/

/-- A schema-conforming response value: all seven categories present, each
bound to an empty array. -/
def sampleNews : PyVal :=
  .dict [("World".toList, .list []), ("Business".toList, .list []),
         ("Technology".toList, .list []), ("Entertainment".toList, .list []),
         ("Sports".toList, .list []), ("Science".toList, .list []),
         ("Health".toList, .list [])]

/-- Every fetch succeeds with a fixed cleaned body, the LLM answers a fixed
text, and `json.loads` parses it to `sampleNews`. -/
def cfgSuccess : FeedConfig :=
  { fetch := fun _ => .ok Option.none (some ("daily news digest".toList))
    llm := fun _ => .response ("sample".toList)
    jsonLoads := fun _ => some sampleNews }

/-- Every fetch succeeds, but the LLM answers a text `json.loads` rejects. -/
def cfgBadJson : FeedConfig :=
  { fetch := fun _ => .ok Option.none (some ("daily news digest".toList))
    llm := fun _ => .response ("not valid json".toList)
    jsonLoads := fun _ => Option.none }

/-- Every fetch raises a request exception. -/
def cfgFail : FeedConfig :=
  { fetch := fun _ => .err ("connection timed out".toList)
    llm := fun _ => .response ("sample".toList)
    jsonLoads := fun _ => Option.none }

/-- Every fetch succeeds and the LLM answers the JSON array text, which
`json.loads` parses to the empty Python list. -/
def cfgArray : FeedConfig :=
  { fetch := fun _ => .ok Option.none (some ("daily news digest".toList))
    llm := fun _ => .response ("[]".toList)
    jsonLoads := fun s => if s = "[]".toList then some (.list []) else Option.none }

/-- C9: with all fetches succeeding and the LLM answering a JSON array — valid
JSON that is not a mapping — `feed` matches neither the dict branch nor the
str branch: the extractor is invoked, yet the run returns Python `None`. -/
theorem feed_falls_through_on_nondict :
    cfgArray.jsonLoads ("[]".toList) = some (PyVal.list []) ∧
    (∀ u, cfgArray.fetch u =
      FetchOutcome.ok Option.none (some ("daily news digest".toList))) ∧
    (feed cfgArray ("a".toList) ("b".toList) ("c".toList)).1 = Option.none ∧
    llmCalls (feed cfgArray ("a".toList) ("b".toList) ("c".toList)).2 ≠ [] :=
  ⟨rfl, fun _ => rfl, rfl, by decide⟩

/-! ## Witnesses -/

/-- Witness for C1 at the concrete configuration `cfgSuccess`. -/
theorem feed_success_schema_witness :
    pyIn failedMarker (mkWebsite ("a".toList) (cfgSuccess.fetch ("a".toList))).text
      = false ∧
    cfgSuccess.jsonLoads ("sample".toList) = some sampleNews ∧
    matchesResponseSchema sampleNews = true ∧
    ((feed cfgSuccess ("a".toList) ("b".toList) ("c".toList)).1 =
      some (successState, sampleNews) ∧
     ∀ c ∈ categories, ∃ elems, lookupKey sampleNews c = some (PyVal.list elems)) :=
  ⟨rfl, rfl, rfl,
   feed_success_schema cfgSuccess ("a".toList) ("b".toList) ("c".toList)
     ("sample".toList) sampleNews rfl rfl rfl rfl rfl rfl⟩

/-- Witness for C2 at the concrete configuration `cfgFail`. -/
theorem feed_marker_skips_llm_witness :
    pyIn failedMarker
      (mkWebsite ("a".toList) (cfgFail.fetch ("a".toList))).text = true ∧
    (llmCalls (feed cfgFail ("a".toList) ("b".toList) ("c".toList)).2 = [] ∧
     ((pyIn failedMarker (mkWebsite ("a".toList) (cfgFail.fetch ("a".toList))).text = true ∧
       Event.printed (mkWebsite ("a".toList) (cfgFail.fetch ("a".toList))).text ∈
         (feed cfgFail ("a".toList) ("b".toList) ("c".toList)).2) ∨
      (pyIn failedMarker (mkWebsite ("b".toList) (cfgFail.fetch ("b".toList))).text = true ∧
       Event.printed (mkWebsite ("b".toList) (cfgFail.fetch ("b".toList))).text ∈
         (feed cfgFail ("a".toList) ("b".toList) ("c".toList)).2) ∨
      (pyIn failedMarker (mkWebsite ("c".toList) (cfgFail.fetch ("c".toList))).text = true ∧
       Event.printed (mkWebsite ("c".toList) (cfgFail.fetch ("c".toList))).text ∈
         (feed cfgFail ("a".toList) ("b".toList) ("c".toList)).2))) :=
  ⟨by decide,
   feed_marker_skips_llm cfgFail ("a".toList) ("b".toList) ("c".toList)
     (Or.inl (by decide))⟩

/-- Witness for C3 at the concrete configuration `cfgSuccess`. -/
theorem feed_truncates_after_concat_witness :
    pyIn failedMarker
      (mkWebsite ("a".toList) (cfgSuccess.fetch ("a".toList))).text = false ∧
    (llmCalls (feed cfgSuccess ("a".toList) ("b".toList) ("c".toList)).2 =
      [((mkWebsite ("a".toList) (cfgSuccess.fetch ("a".toList))).text ++ websiteSep ++
        (mkWebsite ("b".toList) (cfgSuccess.fetch ("b".toList))).text ++ websiteSep ++
        (mkWebsite ("c".toList) (cfgSuccess.fetch ("c".toList))).text).take
          MAX_CONTENT_LENGTH] ∧
     feedLlmInput cfgSuccess ("a".toList) ("b".toList) ("c".toList) <+:
       feedCombined cfgSuccess ("a".toList) ("b".toList) ("c".toList) ∧
     (feedLlmInput cfgSuccess ("a".toList) ("b".toList) ("c".toList)).length ≤
       MAX_CONTENT_LENGTH) :=
  ⟨rfl,
   feed_truncates_after_concat cfgSuccess ("a".toList) ("b".toList) ("c".toList)
     rfl rfl rfl⟩

/-- Witness for C4 at the concrete configuration `cfgBadJson`. -/
theorem feed_invalid_json_witness :
    cfgBadJson.jsonLoads ("not valid json".toList) = Option.none ∧
    ((feed cfgBadJson ("a".toList) ("b".toList) ("c".toList)).1 =
      some (failureState, PyVal.str (invalidJsonMsg ++ "not valid json".toList)) ∧
     "not valid json".toList <:+: invalidJsonMsg ++ "not valid json".toList) :=
  ⟨rfl,
   feed_invalid_json cfgBadJson ("a".toList) ("b".toList) ("c".toList)
     ("not valid json".toList) rfl rfl rfl rfl rfl⟩

end NewsFeed
